import Mathlib

/-!
Shallow embedding of the kollider-hedge hedging daemon core
(`kollider-hedge-domain/src/update.rs` and `kollider-hedge-domain/src/state.rs`),
with theorems checking the natural-language specification against it.

Modelling conventions:
* Rust `i64` quantities are modelled as `Int`.  The source widens to `i128`
  before the rate arithmetic, so those intermediates are exact; sites where the
  source performs a narrowing or reinterpreting cast (`as u64`, `as i64`) are
  modelled explicitly by `toU64`, `satU64` and `i64ofU64` below.
* Rust `f64` computations (`required_margin`, `current_price`, order price
  spread) are modelled in exact rational arithmetic with `f64::round` /
  `f64::ceil` modelled by `rustRound` / `Int.ceil`; `f64 -> u64` casts saturate,
  as in Rust, via `satU64`.
* `HashMap` is modelled as an association list with at most one binding per
  key; `insertAL` replaces in place, `removeAL` deletes, `lookupAL` finds.
* Fallible Rust functions returning `Result` become `Except`; functions that
  mutate `&mut self` and can fail midway are translated to explicit state
  passing returning `Except e Unit × State`; a Rust `assert!` failure (panic)
  is modelled as `Option.none`.
-/

namespace KolliderHedge

/-- Saturating cast of an integer into the `u64` range, as Rust `f64 as u64`. -/
def satU64 (z : Int) : Nat :=
  if z < 0 then 0
  else if z > 2 ^ 64 - 1 then 2 ^ 64 - 1
  else z.toNat

/-- Reinterpreting cast of an `i64` value into `u64` (Rust `as u64`). -/
def toU64 (z : Int) : Nat := (z % (2 ^ 64 : Int)).toNat

/-- Reinterpreting cast of a `u64` value into `i64` (Rust `as i64`). -/
def i64ofU64 (n : Nat) : Int :=
  if n % 2 ^ 64 < 2 ^ 63 then ((n % 2 ^ 64 : Nat) : Int)
  else ((n % 2 ^ 64 : Nat) : Int) - 2 ^ 64

/-- Rust `f64::round`: round half away from zero. -/
def rustRound (q : Rat) : Int :=
  if 0 ≤ q then ⌊q + 1 / 2⌋ else -⌊-q + 1 / 2⌋

/-- Association-list lookup, modelling `HashMap::get`. -/
def lookupAL {α : Type} : List (String × α) → String → Option α
  | [], _ => none
  | p :: rest, k => if p.1 = k then some p.2 else lookupAL rest k

/-- Association-list insert-or-replace, modelling `HashMap::insert`. -/
def insertAL {α : Type} : List (String × α) → String → α → List (String × α)
  | [], k, v => [(k, v)]
  | p :: rest, k, v => if p.1 = k then (k, v) :: rest else p :: insertAL rest k v

/-- Association-list removal, modelling `HashMap::remove`. -/
def removeAL {α : Type} : List (String × α) → String → List (String × α)
  | [], _ => []
  | p :: rest, k => if p.1 = k then rest else p :: removeAL rest k

/-- Model of `i64::MAX`, the overflow bound checked by `ChannelHedge::with_htlc`. -/
def i64MAX : Int := 2 ^ 63 - 1

/-- Model of `ChannelId` from `update.rs`: opaque channel identifier. -/
def ChannelId := String

/-- Model of `Sats` from `update.rs`: amount of satoshis (`i64` in the source). -/
def Sats := Int

/-- Model of `HtlcUpdate` from `update.rs`. -/
structure HtlcUpdate where
  channel_id : String
  sats : Int
  rate : Int
deriving DecidableEq, Repr

/-- Model of `ChannelHedge` from `update.rs`. -/
structure ChannelHedge where
  sats : Int
  rate : Int
deriving DecidableEq, Repr

/-- Model of `HtlcUpdateErr` from `update.rs`. -/
inductive HtlcUpdateErr where
  | InsufficientSatsBalance (was upd new : Int)
  | InsufficientFiatBalance (was_s was_r upd_s upd_r : Int)
  | RateOverflow (was_s was_r upd_s upd_r : Int) (rate : Int)
deriving DecidableEq, Repr

/-- Model of `ChannelHedge::with_htlc` from `update.rs`.  The source widens all operands
to `i128` before the products, so the arithmetic is exact; the quotient uses
Rust `i128` division, which truncates toward zero (`Int.tdiv`). -/
def ChannelHedge.with_htlc (self : ChannelHedge) (htlc : HtlcUpdate) :
    Except HtlcUpdateErr ChannelHedge :=
  if self.sats + htlc.sats < 0 then
    .error (.InsufficientSatsBalance self.sats htlc.sats (self.sats + htlc.sats))
  else
    let sats := self.sats + htlc.sats
    let weighted_sum := self.sats * htlc.rate + htlc.sats * self.rate
    if weighted_sum ≤ 0 then
      .error (.InsufficientFiatBalance self.sats self.rate htlc.sats htlc.rate)
    else
      let rate := Int.tdiv (sats * self.rate * htlc.rate) weighted_sum
      if rate > i64MAX then
        .error (.RateOverflow self.sats self.rate htlc.sats htlc.rate rate)
      else
        .ok { sats := sats, rate := rate }

/-- Model of `ChannelHedge::combine` from `update.rs`: fold the other hedge in as an
HTLC with an empty channel id. -/
def ChannelHedge.combine (self : ChannelHedge) (other : ChannelHedge) :
    Except HtlcUpdateErr ChannelHedge :=
  self.with_htlc { channel_id := "", sats := other.sats, rate := other.rate }

/-- Model of `StateSnapshot` from `update.rs`. -/
structure StateSnapshot where
  channels_hedge : List (String × ChannelHedge)
deriving DecidableEq, Repr

/-- Model of `UpdateBody` from `update.rs`. -/
inductive UpdateBody where
  | Htlc (h : HtlcUpdate)
  | Snapshot (s : StateSnapshot)
deriving DecidableEq, Repr

/-- Model of `StateUpdate` from `update.rs`; `created : NaiveDateTime` is modelled as an
integer timestamp. -/
structure StateUpdate where
  created : Int
  body : UpdateBody
deriving DecidableEq, Repr

/-- Model of `OrderSide` and its `inverse` from the kollider-api dependency
(external to this repository); per the spec, `Bid` and `Ask` invert into each
other at the single conversion point. -/
inductive OrderSide where
  | Bid
  | Ask
deriving DecidableEq, Repr

/-- Side inversion used by `set_order_opened` and `to_kollider_messages`. -/
def OrderSide.inverse : OrderSide → OrderSide
  | .Bid => .Ask
  | .Ask => .Bid

/-- Model of `HedgeConfig` from `state.rs`; `spread_percent : f64` is modelled
as a rational. -/
structure HedgeConfig where
  hedge_pair : String
  hedge_sym : String
  spread_percent : Rat
  hedge_leverage : Nat
deriving DecidableEq, Repr

/-- Model of `impl Default for HedgeConfig` from `state.rs`. -/
def HedgeConfig.default : HedgeConfig :=
  { hedge_pair := ".BTCUSD"
    hedge_sym := "BTCUSD.PERP"
    spread_percent := 1 / 10
    hedge_leverage := 100 }

/-- Model of `KolliderOrder` from `state.rs`. -/
structure KolliderOrder where
  id : Nat
  ext_id : String
  leverage : Nat
  price : Nat
  quantity : Nat
  side : OrderSide
deriving DecidableEq, Repr

/-- Model of `KolliderOrder::required_margin` from `state.rs`, in exact
rational arithmetic: `ceil(quantity * (10^8 / (price / 10)) / (leverage / 100))`
(the source computes this in `f64` and ends with `.ceil()`). -/
def KolliderOrder.required_margin (o : KolliderOrder) : Int :=
  let real_leverage : Rat := (o.leverage : Rat) / 100
  let real_price : Rat := (o.price : Rat) / 10
  ⌈(o.quantity : Rat) * (100000000 / real_price) / real_leverage⌉

/-- Final `as u64` saturating cast on `required_margin`. -/
def KolliderOrder.required_marginU64 (o : KolliderOrder) : Nat :=
  satU64 o.required_margin

/-- Model of `KolliderPosition` from `state.rs` (float fields as rationals). -/
structure KolliderPosition where
  liquidation_price : Rat
  leverage : Nat
  entry_value : Nat
  entry_price : Nat
  quantity : Nat
  rpnl : Rat
deriving DecidableEq, Repr

/-- Model of `OpeningOrder` from `state.rs`. -/
structure OpeningOrder where
  ext_id : String
  symbol : String
  sats : Nat
  price : Nat
  side : OrderSide
  leverage : Nat
deriving DecidableEq, Repr

/-- Model of `StateAction` from `state.rs`. -/
inductive StateAction where
  | OpenOrder (o : OpeningOrder)
  | CloseOrder (order_id : Nat) (symbol : String)
deriving DecidableEq, Repr

/-- Model of `StateAction::is_short_order`: an open-order action on side Bid. -/
def StateAction.is_short_order : StateAction → Bool
  | .OpenOrder o => o.side = OrderSide.Bid
  | _ => false

/-- Model of `StateAction::is_long_order`: an open-order action on side Ask. -/
def StateAction.is_long_order : StateAction → Bool
  | .OpenOrder o => o.side = OrderSide.Ask
  | _ => false

/-- Model of `StateAction::order_sats`. -/
def StateAction.order_sats : StateAction → Option Nat
  | .OpenOrder o => some o.sats
  | _ => none

/-- Model of `OpeningOrder::is_short_order`. -/
def OpeningOrder.is_short_order (o : OpeningOrder) : Bool :=
  o.side = OrderSide.Bid

/-- Model of `OpeningOrder::is_long_order`. -/
def OpeningOrder.is_long_order (o : OpeningOrder) : Bool :=
  o.side = OrderSide.Ask

/-- Model of `StateUpdateErr` from `state.rs`. -/
inductive StateUpdateErr where
  | Htlc (e : HtlcUpdateErr)
deriving DecidableEq, Repr

/-- Model of `ALLOWED_POSITION_GAP` from `state.rs`. -/
def ALLOWED_POSITION_GAP : Int := 1

/-- Model of `State` from `state.rs`, the in-memory ledger.  `last_changed` is
an integer timestamp, float fields are rationals, hash maps are association
lists. -/
structure State where
  last_changed : Int
  config : HedgeConfig
  balance : Option Rat
  ticker : Option Rat
  channels_hedge : List (String × ChannelHedge)
  opened_orders : Option (List KolliderOrder)
  opened_position : Option KolliderPosition
  opening_orders : List (String × OpeningOrder)
  scheduled_actions : List StateAction
deriving DecidableEq, Repr

/-- Model of `State::new` from `state.rs`; the source stamps
`last_changed = Utc::now()`, threaded here as the `now` parameter. -/
def State.new (config : HedgeConfig) (now : Int) : State :=
  { last_changed := now
    config := config
    balance := none
    ticker := none
    channels_hedge := []
    opened_orders := none
    opened_position := none
    opening_orders := []
    scheduled_actions := [] }

/-- Model of `State::with_htlc` from `state.rs`, with the mutation sequence of
the `&mut self` source made explicit: the error is raised before any write, the
insert happens only on success. -/
def State.with_htlc (s : State) (htlc : HtlcUpdate) :
    Except HtlcUpdateErr Unit × State :=
  match lookupAL s.channels_hedge htlc.channel_id with
  | some chan =>
    match chan.with_htlc htlc with
    | .error e => (.error e, s)
    | .ok new_chan =>
      (.ok (), { s with channels_hedge := insertAL s.channels_hedge htlc.channel_id new_chan })
  | none =>
    let fresh : ChannelHedge := ⟨htlc.sats, htlc.rate⟩
    (.ok (), { s with channels_hedge := insertAL s.channels_hedge htlc.channel_id fresh })

/-- Model of `State::apply_update` from `state.rs`: the `?` on `with_htlc`
propagates the error with whatever state the callee left (it leaves it
untouched); `last_changed` is set only after success. -/
def State.apply_update (s : State) (update : StateUpdate) :
    Except StateUpdateErr Unit × State :=
  match update.body with
  | .Htlc htlc =>
    match s.with_htlc htlc with
    | (.error e, s1) => (.error (.Htlc e), s1)
    | (.ok _, s1) => (.ok (), { s1 with last_changed := update.created })
  | .Snapshot snapshot =>
    (.ok (), { s with channels_hedge := snapshot.channels_hedge,
                      last_changed := update.created })

/-- Loop body of `State::collect`: apply each update in order, stopping at the
first error (the Rust `?` discards the partially-updated state). -/
def collectGo (s : State) : List StateUpdate → Except StateUpdateErr State
  | [] => .ok s
  | u :: rest =>
    match s.apply_update u with
    | (.error e, _) => .error e
    | (.ok _, s1) => collectGo s1 rest

/-- Model of `State::collect` from `state.rs`: start from `State::new config`
and fold the ordered updates. -/
def State.collect (config : HedgeConfig) (now : Int) (updates : List StateUpdate) :
    Except StateUpdateErr State :=
  collectGo (State.new config now) updates

/-- Model of the kollider-api wire struct `OpenOrder` (fields used by the
`From<OpenOrder> for KolliderOrder` impl in `state.rs`). -/
structure OpenOrderMsg where
  order_id : Nat
  ext_order_id : String
  leverage : Nat
  price : Nat
  quantity : Nat
  side : OrderSide
deriving DecidableEq, Repr

/-- Model of `impl From<OpenOrder> for KolliderOrder` from `state.rs`. -/
def KolliderOrder.ofOpenOrder (o : OpenOrderMsg) : KolliderOrder :=
  { id := o.order_id
    ext_id := o.ext_order_id
    leverage := o.leverage
    price := o.price
    quantity := o.quantity
    side := o.side }

/-- Model of the kollider-api wire struct `Position` (fields used by the
`From<Position> for KolliderPosition` impl in `state.rs`). -/
structure PositionMsg where
  bankruptcy_price : Rat
  leverage : Nat
  entry_value : Rat
  entry_price : Nat
  quantity : Nat
  rpnl : Rat
deriving DecidableEq, Repr

/-- Model of `impl From<Position> for KolliderPosition` from `state.rs`
(`entry_value.floor() as u64` is a saturating float cast of the floor). -/
def KolliderPosition.ofPosition (p : PositionMsg) : KolliderPosition :=
  { liquidation_price := p.bankruptcy_price
    leverage := p.leverage
    entry_value := satU64 ⌊p.entry_value⌋
    entry_price := p.entry_price
    quantity := p.quantity
    rpnl := p.rpnl }

/-- Model of the inbound `KolliderTaggedMsg` frames that
`State::apply_kollider_message` inspects; every other frame is `Other`. -/
inductive KolliderTaggedMsg where
  | OpenOrders (open_orders : List (String × List OpenOrderMsg))
  | Positions (positions : List (String × PositionMsg))
  | Open (symbol : String) (order_id : Nat) (ext_order_id : String)
         (leverage price quantity : Nat) (side : OrderSide)
  | Balances (cash : Rat)
  | IndexValues (symbol : String) (value : Rat)
  | Received (order_id price quantity leverage : Nat) (ext_order_id : String)
  | Other
deriving DecidableEq, Repr

/-- Model of `KolliderMsg`: the tagged inbound frames, or anything else. -/
inductive KolliderMsg where
  | Tagged (t : KolliderTaggedMsg)
  | Untagged
deriving DecidableEq, Repr

/-- Model of `State::add_opening_order` from `state.rs`. -/
def State.add_opening_order (s : State) (order : OpeningOrder) : State :=
  { s with opening_orders := insertAL s.opening_orders order.ext_id order }

/-- Model of `State::set_order_opened` from `state.rs`: drop the opening entry,
invert the side, and append to `opened_orders`. -/
def State.set_order_opened (s : State) (order : KolliderOrder) : State :=
  let s1 := { s with opening_orders := removeAL s.opening_orders order.ext_id }
  let order2 := { order with side := order.side.inverse }
  match s1.opened_orders with
  | some orders => { s1 with opened_orders := some (orders ++ [order2]) }
  | none => { s1 with opened_orders := some [order2] }

/-- Model of `State::apply_kollider_message` from `state.rs`.  Returns the
`bool` result paired with the resulting state.  Note the `OpenOrders` arm with
an absent symbol mutates `opened_orders` to `Some([])` and then falls through
to the final `false`. -/
def State.apply_kollider_message (s : State) (msg : KolliderMsg) : Bool × State :=
  match msg with
  | .Tagged tmsg =>
    match tmsg with
    | .OpenOrders open_orders =>
      match lookupAL open_orders s.config.hedge_sym with
      | some orders =>
        (true, { s with opened_orders := some (orders.map KolliderOrder.ofOpenOrder) })
      | none =>
        (false, { s with opened_orders := some [] })
    | .Positions positions =>
      match lookupAL positions s.config.hedge_sym with
      | some position =>
        (true, { s with opened_position := some (KolliderPosition.ofPosition position) })
      | none =>
        (true, { s with opened_position := some ⟨0, 100, 0, 0, 0, 0⟩ })
    | .Open symbol order_id ext_order_id leverage price quantity side =>
      if symbol = s.config.hedge_sym then
        let order : KolliderOrder := ⟨order_id, ext_order_id, leverage, price, quantity, side⟩
        match s.opened_orders with
        | some orders => (true, { s with opened_orders := some (orders ++ [order]) })
        | none => (true, { s with opened_orders := some [order] })
      else (false, s)
    | .Balances cash => (true, { s with balance := some cash })
    | .IndexValues symbol value =>
      if symbol = s.config.hedge_pair then (true, { s with ticker := some value })
      else (false, s)
    | .Received order_id price quantity leverage ext_order_id =>
      match lookupAL s.opening_orders ext_order_id with
      | some order =>
        (true, s.set_order_opened ⟨order_id, ext_order_id, leverage, price, quantity, order.side⟩)
      | none => (false, s)
    | .Other => (false, s)
  | .Untagged => (false, s)

/-- Model of `State::total_hedge` from `state.rs`: `try_fold` of `combine`
starting from `ChannelHedge { sats: 0, rate: 1 }`. -/
def State.total_hedge (s : State) : Except HtlcUpdateErr ChannelHedge :=
  s.channels_hedge.foldlM (fun acc p => acc.combine p.2) ⟨0, 1⟩

/-- Model of `State::hedge_capacity` from `state.rs`: sum of `sats as u64`
over all channels, reduced to the `u64` range. -/
def State.hedge_capacity (s : State) : Nat :=
  (s.channels_hedge.foldl (fun acc p => acc + toU64 p.2.sats) 0) % 2 ^ 64

/-- Model of `State::hedge_avg_price` from `state.rs`; `none` models the
`assert!(final_hedge.rate > 0)` panic. -/
def State.hedge_avg_price (s : State) : Option (Except HtlcUpdateErr Nat) :=
  match s.total_hedge with
  | .error e => some (.error e)
  | .ok final_hedge =>
    if final_hedge.rate > 0 then some (.ok final_hedge.rate.toNat) else none

/-- Model of `State::current_price` from `state.rs`:
`(10^8 / ticker).round() as u64` (saturating float cast). -/
def State.current_price (s : State) : Option Nat :=
  s.ticker.map (fun v => satU64 (rustRound (100000000 / v)))

/-- Model of `State::short_orders` from `state.rs`: total required margin of
opened Ask orders. -/
def State.short_orders (s : State) : Option Nat :=
  s.opened_orders.map (fun orders =>
    ((orders.filter (fun o => o.side = OrderSide.Ask)).map
      KolliderOrder.required_marginU64).sum)

/-- Model of `State::long_orders` from `state.rs`: total required margin of
opened Bid orders. -/
def State.long_orders (s : State) : Option Nat :=
  s.opened_orders.map (fun orders =>
    ((orders.filter (fun o => o.side = OrderSide.Bid)).map
      KolliderOrder.required_marginU64).sum)

/-- Model of `State::scheduled_shorts` from `state.rs`. -/
def State.scheduled_shorts (s : State) : Nat :=
  ((s.scheduled_actions.filter StateAction.is_short_order).filterMap
    StateAction.order_sats).sum

/-- Model of `State::scheduled_longs` from `state.rs`. -/
def State.scheduled_longs (s : State) : Nat :=
  ((s.scheduled_actions.filter StateAction.is_long_order).filterMap
    StateAction.order_sats).sum

/-- Model of `State::opening_shorts` from `state.rs`. -/
def State.opening_shorts (s : State) : Nat :=
  (s.opening_orders.filterMap (fun p =>
    if p.2.is_short_order then some p.2.sats else none)).sum

/-- Model of `State::opening_longs` from `state.rs`. -/
def State.opening_longs (s : State) : Nat :=
  (s.opening_orders.filterMap (fun p =>
    if p.2.is_long_order then some p.2.sats else none)).sum

/-- Model of `State::position_volume` from `state.rs`. -/
def State.position_volume (s : State) : Nat :=
  (s.opened_position.map KolliderPosition.entry_value).getD 0

/-- Model of `State::position_quantity` from `state.rs`. -/
def State.position_quantity (s : State) : Nat :=
  (s.opened_position.map KolliderPosition.quantity).getD 0

/-- Model of `State::calculate_next_actions` from `state.rs`.  The fresh UUID
produced by `OpeningOrder::new_id()` is threaded as the `fid` parameter, and a
failed `assert!` (panic) is modelled as `none`.  The source's `Result` is
always `Ok`, so the non-panicking result is `some` of the new state. -/
def State.calculate_next_actions (s : State) (fid : String) : Option State :=
  match s.short_orders, s.long_orders, s.current_price with
  | some so, some lo, some cur_price =>
    let hcap := i64ofU64 s.hedge_capacity
    let scheduled_shorts := i64ofU64 s.scheduled_shorts
    let scheduled_longs := i64ofU64 s.scheduled_longs
    let opening_shorts := i64ofU64 s.opening_shorts
    let opening_longs := i64ofU64 s.opening_longs
    let pos_volume := i64ofU64 s.position_volume
    let pos_short := pos_volume + i64ofU64 so + scheduled_shorts + opening_shorts
    let pos_long := pos_volume - i64ofU64 lo - scheduled_longs - opening_longs
    let gap := ALLOWED_POSITION_GAP * i64ofU64 cur_price
    if hcap > pos_short + gap then
      if pos_short ≤ hcap then
        let price := satU64 (rustRound ((cur_price : Rat) * (1 + (1 / 100) * s.config.spread_percent)))
        let action := StateAction.OpenOrder
          ⟨fid, s.config.hedge_sym, (hcap - pos_short).toNat, price, OrderSide.Bid,
            s.config.hedge_leverage⟩
        some { s with scheduled_actions := s.scheduled_actions ++ [action] }
      else none
    else if hcap < pos_long - gap then
      if hcap ≤ pos_long then
        let price := satU64 (rustRound ((cur_price : Rat) * (1 - (1 / 100) * s.config.spread_percent)))
        let action := StateAction.OpenOrder
          ⟨fid, s.config.hedge_sym, (pos_long - hcap).toNat, price, OrderSide.Ask,
            s.config.hedge_leverage⟩
        some { s with scheduled_actions := s.scheduled_actions ++ [action] }
      else none
    else some s
  | _, _, _ => some s

/-! Regression checks mirroring the unit tests of `update.rs` and `state.rs`,
validating the embedding against the source's own test vectors. -/

theorem regression_weighted_summ_add_01 :
    ChannelHedge.with_htlc ⟨100, 1000⟩ ⟨"", 50, 1500⟩ = .ok ⟨150, 1125⟩ := by rfl

theorem regression_weighted_summ_add_02 :
    ChannelHedge.with_htlc ⟨100, 1000⟩ ⟨"", 50, 1000⟩ = .ok ⟨150, 1000⟩ := by rfl

theorem regression_weighted_summ_add_03 :
    ChannelHedge.with_htlc ⟨0, 1000⟩ ⟨"", 50, 2000⟩ = .ok ⟨50, 2000⟩ := by rfl

theorem regression_weighted_summ_add_04 :
    ChannelHedge.with_htlc ⟨100, 3000⟩ ⟨"", 100, 1000⟩ = .ok ⟨200, 1500⟩ := by rfl

theorem regression_weighted_summ_sub_01 :
    ChannelHedge.with_htlc ⟨300, 3000⟩ ⟨"", -300, 4000⟩ = .ok ⟨0, 0⟩ := by rfl

theorem regression_weighted_summ_sub_02 :
    ChannelHedge.with_htlc ⟨100, 3000⟩ ⟨"", -99, 3000⟩ = .ok ⟨1, 3000⟩ := by rfl

theorem regression_weighted_summ_sub_03 :
    ChannelHedge.with_htlc ⟨300, 3000⟩ ⟨"", -50, 1000⟩ = .ok ⟨250, 5000⟩ := by rfl

theorem regression_weighted_summ_sub_04 :
    ChannelHedge.with_htlc ⟨2, 20000000000000⟩ ⟨"", -1, 10000000000001⟩ =
      .error (.RateOverflow 2 20000000000000 (-1) 10000000000001
        100000000000010000000000000) := by rfl

theorem regression_weighted_summ_sub_05 :
    ChannelHedge.with_htlc ⟨2000000000000, 4000⟩ ⟨"", -1999999999999, 4001⟩ =
      .ok ⟨1, 0⟩ := by rfl

theorem regression_weighted_summ_sub_06 :
    ChannelHedge.with_htlc ⟨2000000000000, 1⟩ ⟨"", -999999999999, 2⟩ =
      .ok ⟨1000000000001, 0⟩ := by rfl

theorem regression_margin_order_1 :
    KolliderOrder.required_marginU64 ⟨0, "x", 100, 500000, 1, .Ask⟩ = 2000 := by
  norm_num [KolliderOrder.required_marginU64, KolliderOrder.required_margin, satU64]
  decide

theorem regression_margin_order_2 :
    KolliderOrder.required_marginU64 ⟨0, "x", 200, 500000, 1, .Ask⟩ = 1000 := by
  norm_num [KolliderOrder.required_marginU64, KolliderOrder.required_margin, satU64]
  decide

/-- Recogniser for the `InsufficientSatsBalance` outcome of the rate algebra. -/
def isInsufficientSats : Except HtlcUpdateErr ChannelHedge → Bool
  | .error (.InsufficientSatsBalance _ _ _) => true
  | _ => false

/-- Claim C7: for every pair of hedges, `combine` returns the error
`InsufficientSatsBalance` if and only if `s1 + s2 < 0`; when `s1 + s2 ≥ 0` it
never returns that error, whatever other outcome occurs. -/
theorem C7_insufficient_sats_iff (h1 h2 : ChannelHedge) :
    isInsufficientSats (h1.combine h2) = true ↔ h1.sats + h2.sats < 0 := by
  unfold ChannelHedge.combine ChannelHedge.with_htlc
  by_cases hlt : h1.sats + h2.sats < 0
  · simp [hlt, isInsufficientSats]
  · simp only [hlt, if_false]
    split_ifs <;> simp [isInsufficientSats, hlt]

/-- Claim C2 counterexample: at the boundary `s1 + s2 = 0` the same-rate merge
does not return `(s1+s2, r)`; `combine((1,1000),(-1,1000))` fails with
`InsufficientFiatBalance` because the weighted sum is zero. -/
theorem C2_counterexample_boundary :
    ChannelHedge.combine ⟨1, 1000⟩ ⟨-1, 1000⟩ =
        .error (.InsufficientFiatBalance 1 1000 (-1) 1000) ∧
      (0 : Int) ≤ 1 + -1 := by
  exact ⟨rfl, by decide⟩

/-- Claim C2 (amended): the same-rate merge
`combine((s1,r),(s2,r)) = ok (s1+s2, r)` holds when `s1 + s2 > 0` and
`0 < r ≤ i64::MAX`; at the boundary `s1 + s2 = 0` (or for non-positive rates)
the call instead fails, the weighted sum being non-positive. -/
theorem C2_same_rate_merge (s1 s2 r : Int) (hpos : 0 < s1 + s2) (hr : 0 < r)
    (hmax : r ≤ i64MAX) :
    ChannelHedge.combine ⟨s1, r⟩ ⟨s2, r⟩ = .ok ⟨s1 + s2, r⟩ := by
  unfold ChannelHedge.combine ChannelHedge.with_htlc
  have h1 : ¬ (s1 + s2 < 0) := by linarith
  have hwe : s1 * r + s2 * r = (s1 + s2) * r := by ring
  have hw : 0 < s1 * r + s2 * r := by rw [hwe]; positivity
  have h2 : ¬ (s1 * r + s2 * r ≤ 0) := by linarith
  have hne : (s1 + s2) * r ≠ 0 := by positivity
  have hdiv : Int.tdiv ((s1 + s2) * r * r) (s1 * r + s2 * r) = r := by
    rw [hwe]
    exact Int.mul_tdiv_cancel_left r hne
  have h3 : ¬ (r > i64MAX) := not_lt.mpr hmax
  simp only [h1, if_false, h2, if_false, hdiv, h3]

/-- Witness for C2 (amended) at `s1 = 2`, `s2 = 3`, `r = 7`. -/
theorem C2_same_rate_merge_witness :
    ChannelHedge.combine ⟨2, 7⟩ ⟨3, 7⟩ = .ok ⟨2 + 3, 7⟩ :=
  C2_same_rate_merge 2 3 7 (by decide) (by decide) (by decide)

/-- Claim C3 counterexample: on the repository's own unit-test order
(`leverage = 100`, `price = 500000`, `quantity = 1`) `required_margin` is
`2000` sats (as the source test asserts), while the spec formula
`ceil(quantity * 10^8 * 100 / (price * leverage))` yields `200`: the claimed
formula misses the factor 10 coming from `price` being in tenths of USD. -/
theorem C3_counterexample :
    KolliderOrder.required_margin ⟨0, "x", 100, 500000, 1, .Ask⟩ = 2000 ∧
      ⌈((1 : Rat) * 100000000 * 100) / (500000 * 100)⌉ = 200 ∧
      (2000 : Int) ≠ 200 := by
  refine ⟨?_, ?_, by decide⟩
  · norm_num [KolliderOrder.required_margin]
  · norm_num

/-- Claim C3 (amended): for every order with positive price and leverage,
`required_margin` equals `ceil(quantity * 10^8 * 100 * 10 / (price * leverage))`
in exact arithmetic — the spec formula corrected by the factor 10 that converts
`price` from tenths of USD. -/
theorem C3_required_margin (o : KolliderOrder) (hp : 0 < o.price)
    (hl : 0 < o.leverage) :
    o.required_margin =
      ⌈((o.quantity : Rat) * 100000000 * 100 * 10) /
        ((o.price : Rat) * (o.leverage : Rat))⌉ := by
  unfold KolliderOrder.required_margin
  have hp' : ((o.price : Rat)) ≠ 0 := by
    exact_mod_cast Nat.pos_iff_ne_zero.mp hp
  have hl' : ((o.leverage : Rat)) ≠ 0 := by
    exact_mod_cast Nat.pos_iff_ne_zero.mp hl
  field_simp
  ring_nf

/-- Witness for C3 (amended) at the repository's unit-test order. -/
theorem C3_required_margin_witness :
    KolliderOrder.required_margin ⟨0, "x", 100, 500000, 1, .Ask⟩ =
      ⌈(((1 : Nat) : Rat) * 100000000 * 100 * 10) /
        ((((500000 : Nat)) : Rat) * (((100 : Nat)) : Rat))⌉ :=
  C3_required_margin ⟨0, "x", 100, 500000, 1, .Ask⟩ (by decide) (by decide)

/-- Claim C1 (code-bug exhibit): applying an Htlc update with negative sats to
a channel that is absent from `channels_hedge` succeeds and stores a hedge with
`sats = -5 < 0`, violating the `sats ≥ 0` ledger invariant that the rest of the
code relies on (`hedge_capacity` casts `sats as u64`, `hedge_avg_price`
asserts): `State::with_htlc` skips the balance check on its fresh-insert
path. -/
theorem C1_negative_insert_bug :
    ((State.new HedgeConfig.default 0).apply_update
        ⟨1, .Htlc ⟨"c", -5, 1000⟩⟩).1 = .ok () ∧
      lookupAL ((State.new HedgeConfig.default 0).apply_update
        ⟨1, .Htlc ⟨"c", -5, 1000⟩⟩).2.channels_hedge ("c") = some ⟨-5, 1000⟩ ∧
      (-5 : Int) < 0 :=
  ⟨rfl, rfl, by decide⟩

/-- Sequential application of a list of updates from a given starting ledger:
the replay the spec describes (`apply_update` on each update in order, errors
aborting the fold as the Rust `?` does). -/
def applySeq (s : State) : List StateUpdate → Except StateUpdateErr State
  | [] => .ok s
  | u :: rest =>
    match s.apply_update u with
    | (.error e, _) => .error e
    | (.ok _, s1) => applySeq s1 rest

/-- Claim C5: `State::collect` returns the same ledger as starting from the
freshly-created default ledger and calling `apply_update` on each update in
order; and applying a Snapshot update replaces `channels_hedge` wholesale with
the snapshot's map (stamping `last_changed`), discarding all previously held
channel hedges rather than merging. -/
theorem C5_collect_replay :
    (∀ (cfg : HedgeConfig) (now : Int) (updates : List StateUpdate),
        State.collect cfg now updates = applySeq (State.new cfg now) updates) ∧
      (∀ (s : State) (t : Int) (m : List (String × ChannelHedge)),
        s.apply_update ⟨t, .Snapshot ⟨m⟩⟩ =
          (.ok (), { s with channels_hedge := m, last_changed := t })) := by
  constructor
  · intro cfg now updates
    unfold State.collect
    generalize State.new cfg now = s
    induction updates generalizing s with
    | nil => rfl
    | cons u rest ih =>
      simp only [collectGo, applySeq]
      rcases h : s.apply_update u with ⟨r, s1⟩
      cases r with
      | error e => simp [h]
      | ok v => simp [h, ih]
  · intro s t m
    rfl

/-- Claim C9: if `apply_update` returns an error, the state is left completely
unchanged (atomicity on error): the only failing path raises the error before
any write. -/
theorem C9_apply_update_atomic (s : State) (u : StateUpdate)
    (e : StateUpdateErr) (s1 : State)
    (h : s.apply_update u = (.error e, s1)) : s1 = s := by
  cases hb : u.body with
  | Htlc htlc =>
    cases hl : lookupAL s.channels_hedge htlc.channel_id with
    | none =>
      simp [State.apply_update, State.with_htlc, hb, hl] at h
    | some chan =>
      cases hc : chan.with_htlc htlc with
      | error e2 =>
        simp [State.apply_update, State.with_htlc, hb, hl, hc, Prod.mk.injEq] at h
        exact h.2.symm
      | ok nc =>
        simp [State.apply_update, State.with_htlc, hb, hl, hc] at h
  | Snapshot m =>
    simp [State.apply_update, hb] at h

/-- Ledger used to witness C9: one channel holding 5 sats. -/
def C9state : State :=
  { State.new HedgeConfig.default 0 with channels_hedge := [(("a"), ⟨5, 1000⟩)] }

/-- Witness for C9: withdrawing 10 sats from a 5-sats channel errors with
`InsufficientSatsBalance` and leaves the ledger untouched. -/
theorem C9_apply_update_atomic_witness :
    ((C9state).apply_update ⟨2, .Htlc ⟨"a", -10, 1000⟩⟩).2 = C9state :=
  C9_apply_update_atomic C9state ⟨2, .Htlc ⟨"a", -10, 1000⟩⟩
    (.Htlc (.InsufficientSatsBalance 5 (-10) (-5)))
    ((C9state).apply_update ⟨2, .Htlc ⟨"a", -10, 1000⟩⟩).2 rfl

/-- Claim C10: the derived-stats read path can panic on a reachable ledger:
replaying two individually-valid Htlc updates (the repository's own
`test_weighted_summ_sub_06` vector) leaves a channel hedge with
`sats = 1000000000001 > 0` and `rate = 0` (integer division), `total_hedge`
then succeeds with rate 0, and `hedge_avg_price`'s `assert!(rate > 0)` fails —
modelled as `none`. -/
theorem C10_hedge_avg_price_panic :
    ∃ s : State,
      State.collect HedgeConfig.default 0
          [⟨1, .Htlc ⟨"c", 2000000000000, 1⟩⟩,
           ⟨2, .Htlc ⟨"c", -999999999999, 2⟩⟩] = .ok s ∧
        s.total_hedge = .ok ⟨1000000000001, 0⟩ ∧
        s.hedge_avg_price = none := by
  refine ⟨_, rfl, ?_, ?_⟩ <;> rfl

/-- Claim C6 (code-bug exhibit): from a fresh ledger (`opened_orders = None`),
an `OpenOrders` frame whose per-symbol map has no entry for the hedge symbol
sets `opened_orders` to `Some([])` — an observable state change — yet
`apply_kollider_message` returns `false`, contradicting its own doc comment
("return true if the state is modified") and the spec's iff. -/
theorem C6_open_orders_change_returns_false :
    ((State.new HedgeConfig.default 0).apply_kollider_message
        (.Tagged (.OpenOrders []))).1 = false ∧
      ((State.new HedgeConfig.default 0).apply_kollider_message
        (.Tagged (.OpenOrders []))).2.opened_orders = some [] ∧
      (State.new HedgeConfig.default 0).opened_orders = none :=
  ⟨rfl, rfl, rfl⟩

/-- Claim C8: on a `Received` frame, if `opening_orders` holds an entry for
`ext_order_id` then applying the frame removes that entry, appends to
`opened_orders` a `KolliderOrder` whose side is the INVERSE of the opening
order's side (other fields taken from the frame), and returns `true`; if there
is no such entry the state is unchanged and the result is `false`. -/
theorem C8_received_frame (s : State) (oid p q lev : Nat) (ext : String) :
    (∀ o : OpeningOrder, lookupAL s.opening_orders ext = some o →
        s.apply_kollider_message (.Tagged (.Received oid p q lev ext)) =
          (true, { s with
            opening_orders := removeAL s.opening_orders ext,
            opened_orders :=
              some ((s.opened_orders.getD []) ++
                [⟨oid, ext, lev, p, q, o.side.inverse⟩]) })) ∧
      (lookupAL s.opening_orders ext = none →
        s.apply_kollider_message (.Tagged (.Received oid p q lev ext)) =
          (false, s)) := by
  obtain ⟨lc, cfg, bal, tick, ch, oo, op, opn, sa⟩ := s
  constructor
  · intro o ho
    simp only [State.apply_kollider_message, ho, State.set_order_opened]
    cases oo <;> simp
  · intro ho
    simp [State.apply_kollider_message, ho]

/-- Ledger used to witness C8: one opening order awaiting acknowledgement. -/
def C8state : State :=
  { State.new HedgeConfig.default 0 with
      opening_orders := [(("e1"), ⟨"e1", "BTCUSD.PERP", 500, 2000, .Bid, 100⟩)] }

/-- Witness for C8: the `Received` acknowledgement for the pending order moves
it to `opened_orders` with the side inverted (Bid becomes Ask) and returns
`true`. -/
theorem C8_received_frame_witness :
    C8state.apply_kollider_message (.Tagged (.Received 7 2000 1 100 ("e1"))) =
      (true, { C8state with
        opening_orders := removeAL C8state.opening_orders ("e1"),
        opened_orders :=
          some ((C8state.opened_orders.getD []) ++
            [⟨7, "e1", 100, 2000, 1, OrderSide.Bid.inverse⟩]) }) :=
  (C8_received_frame C8state 7 2000 1 100 ("e1")).1
    ⟨"e1", "BTCUSD.PERP", 500, 2000, .Bid, 100⟩ rfl

/-- Reinterpreting a `u64` value below `2^63` into `i64` is the identity. -/
theorem i64ofU64_of_lt {n : Nat} (h : n < 2 ^ 63) : i64ofU64 n = (n : Int) := by
  unfold i64ofU64
  have h2 : n % 2 ^ 64 = n := Nat.mod_eq_of_lt (by omega)
  rw [h2, if_pos h]

/-- Claim C4: whenever `opened_orders` and `ticker` are populated and
`hcap > pos_short + gap` (with the `as i64` cast of the current price not
wrapping, i.e. `cp < 2^63`), `calculate_next_actions` appends exactly one
action: an `OpenOrder` with `sats = hcap - pos_short`, `side = Bid`,
`price = round(current_price * (1 + 0.01 * spread_percent))`, symbol and
leverage from the config; and every invocation appends at most one action. -/
theorem C4_open_short_order (s : State) (fid : String) (so lo cp : Nat)
    (h1 : s.short_orders = some so) (h2 : s.long_orders = some lo)
    (h3 : s.current_price = some cp) (hcp : (cp : Int) < 2 ^ 63)
    (hgt : i64ofU64 s.hedge_capacity >
      i64ofU64 s.position_volume + i64ofU64 so + i64ofU64 s.scheduled_shorts +
        i64ofU64 s.opening_shorts + ALLOWED_POSITION_GAP * i64ofU64 cp) :
    s.calculate_next_actions fid =
      some { s with scheduled_actions := s.scheduled_actions ++
        [StateAction.OpenOrder ⟨fid, s.config.hedge_sym,
          (i64ofU64 s.hedge_capacity -
            (i64ofU64 s.position_volume + i64ofU64 so +
              i64ofU64 s.scheduled_shorts + i64ofU64 s.opening_shorts)).toNat,
          satU64 (rustRound ((cp : Rat) * (1 + (1 / 100) * s.config.spread_percent))),
          OrderSide.Bid, s.config.hedge_leverage⟩] } ∧
      (∀ (s2 : State) (fid2 : String) (t : State),
        s2.calculate_next_actions fid2 = some t →
        t.scheduled_actions = s2.scheduled_actions ∨
          ∃ a, t.scheduled_actions = s2.scheduled_actions ++ [a]) := by
  constructor
  · have hcpn : cp < 2 ^ 63 := by exact_mod_cast hcp
    have hcpi : i64ofU64 cp = (cp : Int) := i64ofU64_of_lt hcpn
    have hgap : 0 ≤ ALLOWED_POSITION_GAP * i64ofU64 cp := by
      rw [hcpi]
      unfold ALLOWED_POSITION_GAP
      positivity
    have hps : i64ofU64 s.position_volume + i64ofU64 so + i64ofU64 s.scheduled_shorts +
        i64ofU64 s.opening_shorts ≤ i64ofU64 s.hedge_capacity := by linarith
    simp only [State.calculate_next_actions, h1, h2, h3]
    rw [if_pos hgt, if_pos hps]
  · intro s2 fid2 t ht
    simp only [State.calculate_next_actions] at ht
    split at ht
    all_goals
      first
      | (split_ifs at ht <;>
          first
          | exact Option.noConfusion ht
          | (obtain rfl := Option.some.inj ht; exact Or.inr ⟨_, rfl⟩)
          | (obtain rfl := Option.some.inj ht; exact Or.inl rfl))
      | (obtain rfl := Option.some.inj ht; exact Or.inl rfl)

/-- Ledger used to witness C4: 20000 sats hedged at rate 2500, ticker 35000,
opened orders known and empty, no position (the spec's end-to-end scenario). -/
def C4state : State :=
  { State.new HedgeConfig.default 0 with
      channels_hedge := [(("aboba"), ⟨20000, 2500⟩)]
      opened_orders := some []
      ticker := some 35000 }

/-- Current price of the C4 witness ledger: round(10^8 / 35000) = 2857. -/
theorem C4state_current_price : C4state.current_price = some 2857 := by
  norm_num [C4state, State.new, State.current_price, rustRound, satU64]
  decide

/-- Witness for C4 at the spec's end-to-end scenario: exactly one Bid order
covering all 20000 unhedged sats is scheduled. -/
theorem C4_open_short_order_witness :
    C4state.calculate_next_actions ("ord0") =
      some { C4state with scheduled_actions := C4state.scheduled_actions ++
        [StateAction.OpenOrder ⟨"ord0", C4state.config.hedge_sym,
          (i64ofU64 C4state.hedge_capacity -
            (i64ofU64 C4state.position_volume + i64ofU64 0 +
              i64ofU64 C4state.scheduled_shorts + i64ofU64 C4state.opening_shorts)).toNat,
          satU64 (rustRound (((2857 : Nat) : Rat) * (1 + (1 / 100) * C4state.config.spread_percent))),
          OrderSide.Bid, C4state.config.hedge_leverage⟩] } :=
  (C4_open_short_order C4state ("ord0") 0 0 2857 rfl rfl
    C4state_current_price (by decide) (by decide)).1

/-- End-to-end price regression from the spec: an order at current price 2857
with the default spread of 0.1 percent is priced at round(2857 * 1.001) =
2860. -/
theorem regression_end_to_end_price :
    satU64 (rustRound (((2857 : Nat) : Rat) * (1 + (1 / 100) * (1 / 10)))) = 2860 := by
  norm_num [rustRound, satU64]
  decide

end KolliderHedge
